import Mathlib

/-!
Verification development for the TTS playback core of
`src/eng.py` (English Multi-language Translator App).

The embedding is shallow: file paths are natural numbers, the temporary
directory is a list of paths currently present on storage, and
`tempfile.mkstemp` is modelled by a freshness counter `next` (every path
ever handed out is strictly below `next`, so newly allocated names are
unique and also create the file on storage, exactly as `mkstemp` does).

The pygame mixer is modelled by a `Device` record: `inited` is the result
of `pygame.mixer.get_init()`, `loaded` is the file the mixer currently
holds open (the exclusive file lock that matters on Windows: `os.remove`
on a loaded file fails), and `busy` is `pygame.mixer.music.get_busy()`.
`pygame.mixer.quit()` releases the lock; `pygame.mixer.music.stop()` does
not.

Library availability (`pyttsx3`, `gTTS`, `pydub.AudioSegment`, `pygame`)
and the outcomes of the external calls made during one `generate`
(offline synthesis, `tts.save`, format conversion, `pygame.mixer.init`)
are packaged in an `Env`; a fixed `Env` describes one concrete execution
of the Python code.

Python methods that can raise are translated as functions returning a
pair of the final state (mutations performed before the exception are
kept, as in Python) and an `Except String` result; methods whose body is
wrapped in `try/except: print(...)` (pause, resume, stop) never raise and
return a plain state.
-/

deriving instance DecidableEq for Except

/-- State of the pygame mixer: `pygame.mixer.get_init()`, the file the
mixer currently holds open (its lock), and `pygame.mixer.music.get_busy()`. -/
structure Device where
  inited : Bool
  loaded : Option Nat
  busy : Bool
deriving DecidableEq, Repr

/-- The instance attributes of `TTSPlayer` (src/eng.py lines 69-74):
`audio_file`, `_raw_mp3`, `is_playing`, `paused`. -/
structure PlayerState where
  audio_file : Option Nat
  raw_mp3 : Option Nat
  is_playing : Bool
  paused : Bool
deriving DecidableEq, Repr

/-- Whole-system state: the player object, the mixer device, the set of
files present on storage, and the freshness counter used to model
`tempfile.mkstemp`. -/
structure Sys where
  player : PlayerState
  device : Device
  fs : List Nat
  next : Nat
deriving DecidableEq, Repr

/-- Which libraries are importable and how the external calls of one run
behave: this fixes one concrete execution of the Python code. -/
structure Env where
  pygameAvail : Bool
  pyttsx3Avail : Bool
  gttsAvail : Bool
  audioSegmentAvail : Bool
  mixerInitOk : Bool
  pyttsx3Ok : Bool
  gttsSaveOk : Bool
  convertOk : Bool
deriving DecidableEq, Repr

/-- Error text of `ensure_pygame` when pygame is missing (line 54). -/
def msgNoPygame : String := "pygame is required for audio playback. Install pygame in this environment."

/-- Error text of `ensure_pygame` when `pygame.mixer.init()` fails (line 59). -/
def msgInitFail : String := "Failed to initialize audio device"

/-- Error text of `generate` when gTTS is unavailable (line 99). -/
def msgNoGtts : String := "gTTS not available. Install gTTS (pip install gTTS)."

/-- Error text of `generate` when `tts.save` fails (line 115). -/
def msgGttsFail : String := "gTTS generation failed"

/-- Error text of `play` when no audio file is available (line 143). -/
def msgNoAudio : String := "No audio file to play. Generate it first."

/-- Error text re-raised by `replay` (lines 199-201). -/
def msgReplayFail : String := "Replay error"

/-- `lang.startswith('en')` (line 86): the first two characters of the
language code are `en`. Stated on the character list so that it
evaluates by kernel reduction. -/
def startsWithEn (lang : String) : Bool :=
  lang.data.take 2 == ['e', 'n']

/-- `os.remove(p)` wrapped in `try/except: pass`: the file disappears
only when it exists and the mixer does not hold it open (the exclusive
lock the module comments call out for Windows); any failure is swallowed. -/
def removeIfExists (d : Device) (p : Nat) (fs : List Nat) : List Nat :=
  if p ∈ fs ∧ d.loaded ≠ some p then fs.filter (fun q => q ≠ p) else fs

/-- `TTSPlayer.__init__` (lines 69-74). -/
def TTSPlayer.initState : PlayerState :=
  { audio_file := none, raw_mp3 := none, is_playing := false, paused := false }

/-- `TTSPlayer._stop_and_cleanup_playback` (lines 203-213): when pygame is
importable and the mixer is initialized, stop the music and quit the
mixer, which releases the device's hold on any loaded file; all
exceptions are swallowed. -/
def stopAndCleanupPlayback (env : Env) (s : Sys) : Sys :=
  if env.pygameAvail && s.device.inited then
    { s with device := { inited := false, loaded := none, busy := false } }
  else s

/-- One iteration of the deletion loop of `cleanup` (lines 217-227):
`if p: paths.append(p)` followed by the guarded `os.remove`. -/
def removeOpt (d : Device) (o : Option Nat) (fs : List Nat) : List Nat :=
  match o with
  | some p => removeIfExists d p fs
  | none => fs

/-- `TTSPlayer.cleanup` (lines 215-231): try to delete the tracked final
file and raw mp3 (deletion failures swallowed), then reset all four
attributes. -/
def TTSPlayer.cleanup (s : Sys) : Sys :=
  { s with fs := removeOpt s.device s.player.raw_mp3
                   (removeOpt s.device s.player.audio_file s.fs),
           player := { audio_file := none, raw_mp3 := none,
                       is_playing := false, paused := false } }

/-- `ensure_pygame` (lines 51-59): fail if pygame is missing; initialize
the mixer if it is not initialized, failing if `pygame.mixer.init()`
fails. -/
def ensurePygame (env : Env) (d : Device) : Except String Device :=
  if !env.pygameAvail then Except.error msgNoPygame
  else if d.inited then Except.ok d
  else if env.mixerInitOk then Except.ok { d with inited := true }
  else Except.error msgInitFail

/-- Body of `TTSPlayer.generate` after the initial
`_stop_and_cleanup_playback(); cleanup()` prologue (lines 85-138):
offline pyttsx3 branch (only for languages starting with `en`, with
pyttsx3 importable and gTTS not importable; its `mkstemp` WAV file stays
on storage if the engine fails and control falls through), then the gTTS
branch (unique mp3 via `mkstemp`, save, cleanup of the mp3 on save
failure), then the optional pydub WAV conversion (unique wav via
`mkstemp`; on success the raw mp3 is deleted; on failure the mp3 is kept
as the final file and the wav temp stays on storage). -/
def generateBody (env : Env) (lang : String) (s : Sys) : Sys × Except String Nat :=
  if startsWithEn lang && env.pyttsx3Avail && !env.gttsAvail then
    let path := s.next
    let s1 : Sys := { s with fs := path :: s.fs, next := s.next + 1 }
    if env.pyttsx3Ok then
      ({ s1 with player.audio_file := some path }, Except.ok path)
    else
      (s1, Except.error msgNoGtts)
  else if !env.gttsAvail then
    (s, Except.error msgNoGtts)
  else
    let mp3 := s.next
    let s1 : Sys := { s with fs := mp3 :: s.fs, next := s.next + 1 }
    if !env.gttsSaveOk then
      ({ s1 with fs := removeIfExists s1.device mp3 s1.fs }, Except.error msgGttsFail)
    else
      let s2 : Sys := { s1 with player.raw_mp3 := some mp3 }
      if env.audioSegmentAvail then
        let wav := s2.next
        let s3 : Sys := { s2 with fs := wav :: s2.fs, next := s2.next + 1 }
        if env.convertOk then
          ({ s3 with fs := removeIfExists s3.device mp3 s3.fs,
                     player := { s3.player with audio_file := some wav, raw_mp3 := none } },
           Except.ok wav)
        else
          ({ s3 with player.audio_file := some mp3 }, Except.ok mp3)
      else
        ({ s2 with player.audio_file := some mp3 }, Except.ok mp3)

/-- `TTSPlayer.generate` (lines 76-138): first a full stop-and-release of
the mixer and deletion of previously tracked files, then synthesis. -/
def TTSPlayer.generate (env : Env) (lang : String) (s : Sys) : Sys × Except String Nat :=
  generateBody env lang (TTSPlayer.cleanup (stopAndCleanupPlayback env s))

/-- `TTSPlayer.play` (lines 140-156): `ensure_pygame` first, then require
a tracked file that exists on storage, else raise the no-audio error;
otherwise stop, load (taking the device's hold on the file) and play,
setting `is_playing`/`paused`. -/
def TTSPlayer.play (env : Env) (s : Sys) : Sys × Except String Unit :=
  match ensurePygame env s.device with
  | Except.error e => (s, Except.error e)
  | Except.ok d =>
    let s1 : Sys := { s with device := d }
    match s1.player.audio_file with
    | none => (s1, Except.error msgNoAudio)
    | some p =>
      if p ∈ s1.fs then
        ({ s1 with device := { d with loaded := some p, busy := true },
                   player := { s1.player with is_playing := true, paused := false } },
         Except.ok ())
      else (s1, Except.error msgNoAudio)

/-- `TTSPlayer.pause` (lines 158-166): whole body in `try/except: print`;
pauses only when the mixer reports busy and the player is not already
paused. -/
def TTSPlayer.pause (env : Env) (s : Sys) : Sys :=
  match ensurePygame env s.device with
  | Except.error _ => s
  | Except.ok d =>
    if d.busy && !s.player.paused then
      { s with device := { d with busy := false },
               player := { s.player with paused := true, is_playing := false } }
    else { s with device := d }

/-- `TTSPlayer.resume` (lines 168-176): whole body in `try/except: print`;
unpauses only when the player is paused (`pygame.mixer.music.unpause`
makes the mixer busy again exactly when a file is loaded). -/
def TTSPlayer.resume (env : Env) (s : Sys) : Sys :=
  match ensurePygame env s.device with
  | Except.error _ => s
  | Except.ok d =>
    if s.player.paused then
      { s with device := { d with busy := d.loaded.isSome },
               player := { s.player with paused := false, is_playing := true } }
    else { s with device := d }

/-- `TTSPlayer.stop` (lines 178-185): whole body in `try/except: print`;
stops the music and clears both flags; if `ensure_pygame` fails the
exception is swallowed and nothing changes. -/
def TTSPlayer.stop (env : Env) (s : Sys) : Sys :=
  match ensurePygame env s.device with
  | Except.error _ => s
  | Except.ok d =>
    { s with device := { d with busy := false },
             player := { s.player with is_playing := false, paused := false } }

/-- `TTSPlayer.replay` (lines 187-201): stop, reload the tracked file
from storage and play; on any failure the exception is printed and
re-raised. -/
def TTSPlayer.replay (env : Env) (s : Sys) : Sys × Except String Unit :=
  match ensurePygame env s.device with
  | Except.error e => (s, Except.error e)
  | Except.ok d =>
    let d1 : Device := { d with busy := false }
    match s.player.audio_file with
    | none => ({ s with device := d1 }, Except.error msgReplayFail)
    | some p =>
      if p ∈ s.fs then
        ({ s with device := { d1 with loaded := some p, busy := true },
                  player := { s.player with is_playing := true, paused := false } },
         Except.ok ())
      else ({ s with device := d1 }, Except.error msgReplayFail)

/-- The temp files currently tracked by the player (final file and raw mp3). -/
def tracked (p : PlayerState) : List Nat :=
  p.audio_file.toList ++ p.raw_mp3.toList

/-- Freshness invariant maintained by `tempfile.mkstemp`: every path on
storage and every tracked path was allocated below the counter. -/
def Sys.fresh (s : Sys) : Prop :=
  (∀ p ∈ s.fs, p < s.next) ∧ (∀ p ∈ tracked s.player, p < s.next)

/-- Device consistency: the mixer can only hold a file open if pygame is
importable and the mixer is initialized (files are loaded only through
`play`/`replay`, which run `ensure_pygame` first). -/
def Sys.devOK (env : Env) (s : Sys) : Prop :=
  ∀ p ∈ s.device.loaded.toList, env.pygameAvail = true ∧ s.device.inited = true

instance (s : Sys) : Decidable s.fresh := by
  unfold Sys.fresh; infer_instance

instance (env : Env) (s : Sys) : Decidable (s.devOK env) := by
  unfold Sys.devOK; infer_instance

/-- One phonetics record of a dictionaryapi.dev entry: its optional
`text` field (Python treats a missing key and an empty string alike). -/
structure Phonetic where
  text : Option String
deriving DecidableEq, Repr

/-- One definition record: `definition` (defaulting to empty) and the
optional `example` field. -/
structure DictDef where
  defn : Option String
  exampleText : Option String
deriving DecidableEq, Repr

/-- One meaning record: `partOfSpeech` (defaulting to empty) and the
`definitions` list. -/
structure DictMeaning where
  partOfSpeech : Option String
  definitions : List DictDef
deriving DecidableEq, Repr

/-- One entry of the dictionaryapi.dev response body. -/
structure DictEntry where
  word : Option String
  phonetics : List Phonetic
  meanings : List DictMeaning
deriving DecidableEq, Repr

/-- A received HTTP response from the definitions endpoint: its status
code and its parsed JSON body (a list of entries). -/
structure DictResp where
  status_code : Nat
  data : List DictEntry
deriving DecidableEq, Repr

/-- The text inserted while the lookup is in flight (line 501). -/
def searchingMsg (word : String) : String :=
  "Searching meaning for \x22" ++ word ++ "\x22...\n"

/-- The text shown when no definition is found (lines 505 and 534). -/
def noDefMsg (word : String) : String :=
  "No definition found for \x22" ++ word ++ "\x22.\n"

/-- The `short_text` built from the first entry of the response body
(lines 509-532), with Python truthiness of the optional string fields
(a missing key and an empty string both skip the line). -/
def buildShortText (word : String) (entry : DictEntry) : String :=
  let t1 := "Word: " ++ entry.word.getD word ++ "\n"
  let t2 := match entry.phonetics with
    | [] => t1
    | ph :: _ =>
      match ph.text with
      | some p => if p ≠ "" then t1 ++ "Pronunciation: " ++ p ++ "\n" else t1
      | none => t1
  match entry.meanings with
  | [] => t2 ++ "No meanings found.\n"
  | m :: _ =>
    match m.definitions with
    | [] => t2
    | d :: _ =>
      let t3 := t2 ++ "Part of speech: " ++ m.partOfSpeech.getD "" ++ "\n"
                   ++ "Definition: " ++ d.defn.getD "" ++ "\n"
      match d.exampleText with
      | some ex => if ex ≠ "" then t3 ++ "Example: " ++ ex ++ "\n" else t3
      | none => t3

/-- `EnglishLearningApp._fetch_meaning_thread` (lines 498-553) after the
HTTP GET has returned `resp`: the result is the list of texts shown in
the meaning box when the thread returns. A non-success status inserts
the no-definition message after the searching banner and returns; a
success status builds `short_text`, optionally translates it (`tr`
returns `none` when `GoogleTranslator` raises, in which case the
translation failure is appended as text), and replaces the box content.
The whole body sits in a `try/except` that renders any exception as
text, so the thread never raises. -/
def fetchMeaningThread (word : String) (resp : DictResp) (targetCode : String)
    (tr : String → Option String) : List String :=
  let box1 : List String := [searchingMsg word]
  if resp.status_code ≠ 200 then
    box1 ++ [noDefMsg word]
  else
    let shortText :=
      match resp.data with
      | [] => noDefMsg word
      | entry :: _ => buildShortText word entry
    let fullText :=
      if targetCode ≠ "en" then
        match tr shortText with
        | some t =>
            "--- Original (English) ---\n" ++ shortText ++
              "\n\n--- Translated ---\n" ++ t
        | none => shortText ++ "\n\n(Translation failed)"
      else shortText
    [fullText]

/-- The state-machine invariant: the controller is never simultaneously
Playing and Paused. -/
def flagInv (p : PlayerState) : Prop :=
  ¬(p.is_playing = true ∧ p.paused = true)

instance (p : PlayerState) : Decidable (flagInv p) := by
  unfold flagInv; infer_instance

/-- A run in which every library is importable and every external call
succeeds. -/
def envAll : Env :=
  { pygameAvail := true, pyttsx3Avail := true, gttsAvail := true,
    audioSegmentAvail := true, mixerInitOk := true, pyttsx3Ok := true,
    gttsSaveOk := true, convertOk := true }

/-- A freshly constructed player with the mixer never initialized. -/
def sysStart : Sys :=
  { player := TTSPlayer.initState,
    device := { inited := false, loaded := none, busy := false },
    fs := [], next := 0 }

/-- A state in which a first generated asset (path 0) exists on storage,
is loaded into the mixer and is playing. -/
def sysPrior : Sys :=
  { player := { audio_file := some 0, raw_mp3 := none,
                is_playing := true, paused := false },
    device := { inited := true, loaded := some 0, busy := true },
    fs := [0], next := 1 }

/-! ### Helper lemmas about file removal and the generate prologue -/

theorem mem_of_mem_removeIfExists {d : Device} {p q : Nat} {fs : List Nat}
    (h : q ∈ removeIfExists d p fs) : q ∈ fs := by
  unfold removeIfExists at h
  split at h
  · exact (List.mem_filter.mp h).1
  · exact h

theorem not_mem_removeIfExists_self {d : Device} {p : Nat} {fs : List Nat}
    (h : d.loaded = none) : p ∉ removeIfExists d p fs := by
  unfold removeIfExists
  split
  · intro hmem
    have := (List.mem_filter.mp hmem).2
    simp at this
  · intro hmem
    rename_i hcond
    exact hcond ⟨hmem, by simp [h]⟩

theorem removeIfExists_eq_filter {d : Device} {p : Nat} {fs : List Nat}
    (h : d.loaded = none) (hp : p ∈ fs) :
    removeIfExists d p fs = fs.filter (fun q => q ≠ p) := by
  unfold removeIfExists
  rw [if_pos ⟨hp, by simp [h]⟩]

theorem mem_of_mem_removeOpt {d : Device} {o : Option Nat} {q : Nat} {fs : List Nat}
    (h : q ∈ removeOpt d o fs) : q ∈ fs := by
  cases o with
  | none => exact h
  | some p => exact mem_of_mem_removeIfExists h

theorem not_mem_removeOpt_self {d : Device} {q : Nat} {fs : List Nat}
    (hl : d.loaded = none) : q ∉ removeOpt d (some q) fs :=
  not_mem_removeIfExists_self hl

theorem cleanup_player (s : Sys) :
    (TTSPlayer.cleanup s).player =
      { audio_file := none, raw_mp3 := none, is_playing := false, paused := false } := rfl

theorem cleanup_device (s : Sys) : (TTSPlayer.cleanup s).device = s.device := rfl

theorem cleanup_next (s : Sys) : (TTSPlayer.cleanup s).next = s.next := rfl

theorem cleanup_fs_subset {s : Sys} {q : Nat} (h : q ∈ (TTSPlayer.cleanup s).fs) :
    q ∈ s.fs := by
  unfold TTSPlayer.cleanup at h
  exact mem_of_mem_removeOpt (mem_of_mem_removeOpt h)

theorem cleanup_removes_tracked {s : Sys} {q : Nat}
    (hl : s.device.loaded = none) (hq : q ∈ tracked s.player) :
    q ∉ (TTSPlayer.cleanup s).fs := by
  unfold tracked at hq
  rw [List.mem_append] at hq
  unfold TTSPlayer.cleanup
  simp only
  rcases hq with hq | hq
  · cases hfile : s.player.audio_file with
    | none => rw [hfile] at hq; simp at hq
    | some p =>
      rw [hfile] at hq
      simp at hq
      subst hq
      intro hmem
      exact not_mem_removeOpt_self hl (mem_of_mem_removeOpt hmem)
  · cases hraw : s.player.raw_mp3 with
    | none => rw [hraw] at hq; simp at hq
    | some p =>
      rw [hraw] at hq
      simp at hq
      subst hq
      exact not_mem_removeOpt_self hl

theorem stopclean_player (env : Env) (s : Sys) :
    (stopAndCleanupPlayback env s).player = s.player := by
  unfold stopAndCleanupPlayback; split <;> rfl

theorem stopclean_fs (env : Env) (s : Sys) :
    (stopAndCleanupPlayback env s).fs = s.fs := by
  unfold stopAndCleanupPlayback; split <;> rfl

theorem stopclean_next (env : Env) (s : Sys) :
    (stopAndCleanupPlayback env s).next = s.next := by
  unfold stopAndCleanupPlayback; split <;> rfl

theorem stopclean_loaded {env : Env} {s : Sys} (hdev : s.devOK env) :
    (stopAndCleanupPlayback env s).device.loaded = none := by
  unfold stopAndCleanupPlayback
  split
  · rfl
  · rename_i hcond
    cases hl : s.device.loaded with
    | none => rfl
    | some p =>
      have h2 := hdev p (by rw [hl]; simp)
      exact absurd (by rw [h2.1, h2.2]; rfl : (env.pygameAvail && s.device.inited) = true) hcond

/-- Combined facts about the `_stop_and_cleanup_playback(); cleanup()`
prologue that `generate` runs before synthesizing. -/
theorem prologue_spec (env : Env) (s : Sys) (hdev : s.devOK env) :
    (TTSPlayer.cleanup (stopAndCleanupPlayback env s)).player = TTSPlayer.initState ∧
    (TTSPlayer.cleanup (stopAndCleanupPlayback env s)).next = s.next ∧
    (TTSPlayer.cleanup (stopAndCleanupPlayback env s)).device.loaded = none ∧
    (∀ q ∈ (TTSPlayer.cleanup (stopAndCleanupPlayback env s)).fs, q ∈ s.fs) ∧
    (∀ q ∈ tracked s.player, q ∉ (TTSPlayer.cleanup (stopAndCleanupPlayback env s)).fs) := by
  refine ⟨cleanup_player _, ?_, ?_, ?_, ?_⟩
  · rw [cleanup_next, stopclean_next]
  · rw [cleanup_device]; exact stopclean_loaded hdev
  · intro q hq
    have := cleanup_fs_subset hq
    rw [stopclean_fs] at this
    exact this
  · intro q hq
    apply cleanup_removes_tracked (stopclean_loaded hdev)
    rw [stopclean_player]
    exact hq

/-- Evaluation of the post-prologue body on the gTTS path with pydub
available and conversion succeeding. -/
theorem generateBody_conv (env : Env) (lang : String) (t : Sys)
    (hgtts : env.gttsAvail = true) (hsave : env.gttsSaveOk = true)
    (hseg : env.audioSegmentAvail = true) (hconv : env.convertOk = true) :
    generateBody env lang t =
      ({ t with fs := removeIfExists t.device t.next ((t.next+1) :: t.next :: t.fs),
                next := t.next + 2,
                player := { t.player with audio_file := some (t.next+1), raw_mp3 := none } },
       Except.ok (t.next+1)) := by
  unfold generateBody
  simp [hgtts, hsave, hseg, hconv]

/-- Every possible outcome of the post-prologue body of `generate`, one
disjunct per path of lines 85-138: offline success, offline failure
falling into the missing-gTTS error, missing gTTS, `tts.save` failure
with its mp3 cleanup, conversion success, conversion failure keeping the
mp3 (with the orphan wav temp), and the no-pydub mp3 path. -/
theorem generateBody_cases (env : Env) (lang : String) (t : Sys) :
    (generateBody env lang t =
       ({ t with fs := t.next :: t.fs, next := t.next + 1,
                 player := { t.player with audio_file := some t.next } },
        Except.ok t.next)) ∨
    (generateBody env lang t =
       ({ t with fs := t.next :: t.fs, next := t.next + 1 }, Except.error msgNoGtts)) ∨
    (generateBody env lang t = (t, Except.error msgNoGtts)) ∨
    (generateBody env lang t =
       ({ t with fs := removeIfExists t.device t.next (t.next :: t.fs), next := t.next + 1 },
        Except.error msgGttsFail)) ∨
    (generateBody env lang t =
       ({ t with fs := removeIfExists t.device t.next ((t.next+1) :: t.next :: t.fs),
                 next := t.next + 2,
                 player := { t.player with audio_file := some (t.next+1), raw_mp3 := none } },
        Except.ok (t.next+1))) ∨
    (generateBody env lang t =
       ({ t with fs := (t.next+1) :: t.next :: t.fs, next := t.next + 2,
                 player := { t.player with audio_file := some t.next, raw_mp3 := some t.next } },
        Except.ok t.next)) ∨
    (generateBody env lang t =
       ({ t with fs := t.next :: t.fs, next := t.next + 1,
                 player := { t.player with audio_file := some t.next, raw_mp3 := some t.next } },
        Except.ok t.next)) := by
  unfold generateBody
  split_ifs <;> simp

theorem generateBody_fs_sub (env : Env) (lang : String) (t : Sys) :
    ∀ q ∈ (generateBody env lang t).1.fs, q ∈ t.fs ∨ q = t.next ∨ q = t.next + 1 := by
  rcases generateBody_cases env lang t with h|h|h|h|h|h|h <;> rw [h] <;> intro q hq <;>
    (try replace hq := mem_of_mem_removeIfExists hq) <;> simp at hq <;> tauto

theorem generateBody_device (env : Env) (lang : String) (t : Sys) :
    (generateBody env lang t).1.device = t.device := by
  rcases generateBody_cases env lang t with h|h|h|h|h|h|h <;> rw [h]

theorem generateBody_ok (env : Env) (lang : String) (t : Sys) :
    ∀ q, (generateBody env lang t).2 = Except.ok q →
      (generateBody env lang t).1.player.audio_file = some q ∧
        (q = t.next ∨ q = t.next + 1) := by
  rcases generateBody_cases env lang t with h|h|h|h|h|h|h <;> rw [h] <;> intro q hq <;>
    simp_all

theorem generateBody_err (env : Env) (lang : String) (t : Sys) :
    ∀ e, (generateBody env lang t).2 = Except.error e →
      (generateBody env lang t).1.player.audio_file = t.player.audio_file ∧
      (generateBody env lang t).1.player.raw_mp3 = t.player.raw_mp3 := by
  rcases generateBody_cases env lang t with h|h|h|h|h|h|h <;> rw [h] <;> intro e hq <;>
    simp_all

theorem generateBody_flags (env : Env) (lang : String) (t : Sys) :
    (generateBody env lang t).1.player.is_playing = t.player.is_playing ∧
    (generateBody env lang t).1.player.paused = t.player.paused := by
  rcases generateBody_cases env lang t with h|h|h|h|h|h|h <;> rw [h] <;> exact ⟨rfl, rfl⟩

/-- C1: after every successful `TTSPlayer.generate` in which WAV
conversion is available and succeeds, exactly one final audio file is
tracked (`audio_file` is the new WAV path), the raw intermediate MP3 has
been deleted from storage with `_raw_mp3 = None`, and no file from any
prior generation remains tracked or on storage. -/
theorem generate_convert_success (env : Env) (lang : String) (s : Sys)
    (hfresh : s.fresh) (hdev : s.devOK env)
    (hgtts : env.gttsAvail = true) (hsave : env.gttsSaveOk = true)
    (hseg : env.audioSegmentAvail = true) (hconv : env.convertOk = true) :
    ∃ wav, (TTSPlayer.generate env lang s).2 = Except.ok wav ∧
      tracked (TTSPlayer.generate env lang s).1.player = [wav] ∧
      (TTSPlayer.generate env lang s).1.player.raw_mp3 = none ∧
      wav ∉ s.fs ∧
      (∀ q ∈ tracked s.player, q ∉ (TTSPlayer.generate env lang s).1.fs) ∧
      (∀ q ∈ (TTSPlayer.generate env lang s).1.fs, q = wav ∨ q ∈ s.fs) := by
  obtain ⟨hpl, hnx, hld, hsub, hrem⟩ := prologue_spec env s hdev
  have hgen : TTSPlayer.generate env lang s =
      generateBody env lang (TTSPlayer.cleanup (stopAndCleanupPlayback env s)) := rfl
  set t := TTSPlayer.cleanup (stopAndCleanupPlayback env s) with ht
  rw [generateBody_conv env lang t hgtts hsave hseg hconv] at hgen
  refine ⟨t.next + 1, ?_, ?_, ?_, ?_, ?_, ?_⟩
  · rw [hgen]
  · rw [hgen, tracked]
    simp
  · rw [hgen]
  · intro hmem
    have := hfresh.1 _ hmem
    omega
  · intro q hq
    rw [hgen]
    simp only
    intro hmem
    have hq2 := mem_of_mem_removeIfExists hmem
    have hqlt : q < s.next := hfresh.2 q hq
    rcases List.mem_cons.mp hq2 with h | h
    · omega
    · rcases List.mem_cons.mp h with h | h
      · omega
      · exact hrem q hq h
  · intro q hq
    rw [hgen] at hq
    simp only at hq
    have hq2 := mem_of_mem_removeIfExists hq
    rcases List.mem_cons.mp hq2 with h | h
    · exact Or.inl h
    · rcases List.mem_cons.mp h with h | h
      · exfalso
        subst h
        exact not_mem_removeIfExists_self hld hq
      · exact Or.inr (hsub q h)

/-- Witness for `generate_convert_success`: a second generation over a
playing first asset, target language `fr`. -/
theorem generate_convert_success_witness :
    sysPrior.fresh ∧ sysPrior.devOK envAll ∧
    (∃ wav, (TTSPlayer.generate envAll "fr" sysPrior).2 = Except.ok wav ∧
      tracked (TTSPlayer.generate envAll "fr" sysPrior).1.player = [wav] ∧
      (TTSPlayer.generate envAll "fr" sysPrior).1.player.raw_mp3 = none ∧
      wav ∉ sysPrior.fs ∧
      (∀ q ∈ tracked sysPrior.player, q ∉ (TTSPlayer.generate envAll "fr" sysPrior).1.fs) ∧
      (∀ q ∈ (TTSPlayer.generate envAll "fr" sysPrior).1.fs, q = wav ∨ q ∈ sysPrior.fs)) :=
  ⟨by decide, by decide,
   generate_convert_success envAll "fr" sysPrior (by decide) (by decide) rfl rfl rfl rfl⟩

/-- C2: every call to `TTSPlayer.generate` first stops playback,
releases the mixer's hold on the loaded file and deletes the previously
tracked asset before producing new audio: afterwards the old path is off
storage (deletion succeeded, no file-lock error), the mixer holds no
file, and on success the tracked asset is a brand-new path. -/
theorem generate_supersedes (env : Env) (lang : String) (s : Sys) (p : Nat)
    (hfresh : s.fresh) (hdev : s.devOK env)
    (hprev : s.player.audio_file = some p) :
    p ∉ (TTSPlayer.generate env lang s).1.fs ∧
    (TTSPlayer.generate env lang s).1.device.loaded = none ∧
    (∀ q, (TTSPlayer.generate env lang s).2 = Except.ok q →
      (TTSPlayer.generate env lang s).1.player.audio_file = some q ∧
        q ∉ s.fs ∧ q ≠ p) := by
  obtain ⟨hpl, hnx, hld, hsub, hrem⟩ := prologue_spec env s hdev
  have hgen : TTSPlayer.generate env lang s =
      generateBody env lang (TTSPlayer.cleanup (stopAndCleanupPlayback env s)) := rfl
  set t := TTSPlayer.cleanup (stopAndCleanupPlayback env s) with ht
  have hptr : p ∈ tracked s.player := by simp [tracked, hprev]
  have hplt : p < s.next := hfresh.2 p hptr
  have hpt : p ∉ t.fs := hrem p hptr
  refine ⟨?_, ?_, ?_⟩
  · rw [hgen]
    intro hmem
    rcases generateBody_fs_sub env lang t p hmem with h | h | h
    · exact hpt h
    · omega
    · omega
  · rw [hgen, generateBody_device]
    exact hld
  · intro q hq
    rw [hgen] at hq ⊢
    obtain ⟨hfile, hval⟩ := generateBody_ok env lang t q hq
    refine ⟨hfile, ?_, ?_⟩
    · intro hmem
      have := hfresh.1 q hmem
      omega
    · omega

/-- Witness for `generate_supersedes`: regenerating while the first
asset (path 0) is loaded and playing. -/
theorem generate_supersedes_witness :
    sysPrior.fresh ∧ sysPrior.devOK envAll ∧ sysPrior.player.audio_file = some 0 ∧
    (0 ∉ (TTSPlayer.generate envAll "hi" sysPrior).1.fs ∧
     (TTSPlayer.generate envAll "hi" sysPrior).1.device.loaded = none ∧
     (∀ q, (TTSPlayer.generate envAll "hi" sysPrior).2 = Except.ok q →
       (TTSPlayer.generate envAll "hi" sysPrior).1.player.audio_file = some q ∧
         q ∉ sysPrior.fs ∧ q ≠ 0)) :=
  ⟨by decide, by decide, rfl,
   generate_supersedes envAll "hi" sysPrior 0 (by decide) (by decide) rfl⟩

/-- Successful playback: with pygame available, the mixer initializable,
and a tracked file present on storage, `play` succeeds, sets the Playing
flags and loads the file into the mixer. -/
theorem play_ok (env : Env) (s : Sys) (p : Nat)
    (hpg : env.pygameAvail = true)
    (hinit : s.device.inited = true ∨ env.mixerInitOk = true)
    (hfile : s.player.audio_file = some p) (hmem : p ∈ s.fs) :
    (TTSPlayer.play env s).2 = Except.ok () ∧
    (TTSPlayer.play env s).1.player.is_playing = true ∧
    (TTSPlayer.play env s).1.player.paused = false ∧
    (TTSPlayer.play env s).1.device.loaded = some p := by
  unfold TTSPlayer.play ensurePygame
  cases hin2 : s.device.inited with
  | true => simp [hpg, hin2, hfile, hmem]
  | false =>
    rcases hinit with hin | hmx
    · rw [hin2] at hin; cases hin
    · simp [hpg, hin2, hmx, hfile, hmem]

/-- Evaluation of `play` when no usable file is tracked: the no-audio
error is raised and the controller state is untouched. -/
theorem play_without_file_eval (env : Env) (s : Sys)
    (hpg : env.pygameAvail = true)
    (hinit : s.device.inited = true ∨ env.mixerInitOk = true)
    (hfile : s.player.audio_file = none ∨
             ∃ p, s.player.audio_file = some p ∧ p ∉ s.fs) :
    (TTSPlayer.play env s).2 = Except.error msgNoAudio ∧
    (TTSPlayer.play env s).1.player = s.player := by
  unfold TTSPlayer.play ensurePygame
  cases hin2 : s.device.inited with
  | true =>
    rcases hfile with hnone | ⟨p, hp, hnp⟩
    · simp [hpg, hin2, hnone]
    · simp [hpg, hin2, hp, hnp]
  | false =>
    rcases hinit with hin | hmx
    · rw [hin2] at hin; cases hin
    · rcases hfile with hnone | ⟨p, hp, hnp⟩
      · simp [hpg, hin2, hmx, hnone]
      · simp [hpg, hin2, hmx, hp, hnp]

/-- C3: on a `TTSPlayer` on which no generate call has succeeded
(`audio_file` is `None`) or whose audio file is absent from storage,
`play()` fails with the no-audio playback error and leaves the
controller untouched (the `RuntimeError` is reported, the process does
not crash: the whole call is a total function returning the error),
assuming the audio device subsystem is available. -/
theorem play_no_audio_error (env : Env) (s : Sys)
    (hpg : env.pygameAvail = true)
    (hinit : s.device.inited = true ∨ env.mixerInitOk = true)
    (hfile : s.player.audio_file = none ∨
             ∃ p, s.player.audio_file = some p ∧ p ∉ s.fs) :
    (TTSPlayer.play env s).2 = Except.error msgNoAudio ∧
    (TTSPlayer.play env s).1.player = s.player :=
  play_without_file_eval env s hpg hinit hfile

/-- Witness for `play_no_audio_error`: `play` on a freshly constructed
controller. -/
theorem play_no_audio_error_witness :
    envAll.pygameAvail = true ∧ sysStart.player.audio_file = none ∧
    ((TTSPlayer.play envAll sysStart).2 = Except.error msgNoAudio ∧
     (TTSPlayer.play envAll sysStart).1.player = sysStart.player) :=
  ⟨rfl, rfl, play_no_audio_error envAll sysStart rfl (Or.inr rfl) (Or.inl rfl)⟩

/-- Evaluation of the post-prologue body on the gTTS path when pydub is
not importable: the mp3 itself becomes the final file. -/
theorem generateBody_noseg (env : Env) (lang : String) (t : Sys)
    (hgtts : env.gttsAvail = true) (hsave : env.gttsSaveOk = true)
    (hseg : env.audioSegmentAvail = false) :
    generateBody env lang t =
      ({ t with fs := t.next :: t.fs, next := t.next + 1,
                player := { t.player with audio_file := some t.next,
                                           raw_mp3 := some t.next } },
       Except.ok t.next) := by
  unfold generateBody
  simp [hgtts, hsave, hseg]

/-- Evaluation of the post-prologue body on the gTTS path when pydub is
importable but the conversion fails: the mp3 is kept as the final file
and the wav temp allocated for the conversion stays on storage. -/
theorem generateBody_noconv (env : Env) (lang : String) (t : Sys)
    (hgtts : env.gttsAvail = true) (hsave : env.gttsSaveOk = true)
    (hseg : env.audioSegmentAvail = true) (hconv : env.convertOk = false) :
    generateBody env lang t =
      ({ t with fs := (t.next+1) :: t.next :: t.fs, next := t.next + 2,
                player := { t.player with audio_file := some t.next,
                                           raw_mp3 := some t.next } },
       Except.ok t.next) := by
  unfold generateBody
  simp [hgtts, hsave, hseg, hconv]

/-- C5: when format conversion is unavailable (pydub missing) or the
conversion step fails, a successful `generate` returns the raw MP3 asset
as the final asset (`audio_file` equals the raw MP3 path, which is on
storage), and `play()` on that controller still succeeds. -/
theorem generate_fallback_mp3 (env : Env) (lang : String) (s : Sys)
    (hgtts : env.gttsAvail = true) (hsave : env.gttsSaveOk = true)
    (hnoconv : env.audioSegmentAvail = false ∨ env.convertOk = false)
    (hpg : env.pygameAvail = true) (hmix : env.mixerInitOk = true) :
    ∃ mp3, (TTSPlayer.generate env lang s).2 = Except.ok mp3 ∧
      (TTSPlayer.generate env lang s).1.player.audio_file = some mp3 ∧
      (TTSPlayer.generate env lang s).1.player.raw_mp3 = some mp3 ∧
      mp3 ∈ (TTSPlayer.generate env lang s).1.fs ∧
      (TTSPlayer.play env (TTSPlayer.generate env lang s).1).2 = Except.ok () := by
  have hgen : TTSPlayer.generate env lang s =
      generateBody env lang (TTSPlayer.cleanup (stopAndCleanupPlayback env s)) := rfl
  set t := TTSPlayer.cleanup (stopAndCleanupPlayback env s) with ht
  rcases hnoconv with hseg | hconv
  · rw [generateBody_noseg env lang t hgtts hsave hseg] at hgen
    refine ⟨t.next, ?_, ?_, ?_, ?_, ?_⟩
    · rw [hgen]
    · rw [hgen]
    · rw [hgen]
    · rw [hgen]; exact List.mem_cons_self _ _
    · rw [hgen]
      exact (play_ok env _ t.next hpg (Or.inr hmix) rfl (List.mem_cons_self _ _)).1
  · by_cases hseg : env.audioSegmentAvail = true
    · rw [generateBody_noconv env lang t hgtts hsave hseg hconv] at hgen
      refine ⟨t.next, ?_, ?_, ?_, ?_, ?_⟩
      · rw [hgen]
      · rw [hgen]
      · rw [hgen]
      · rw [hgen]
        exact List.mem_cons_of_mem _ (List.mem_cons_self _ _)
      · rw [hgen]
        exact (play_ok env _ t.next hpg (Or.inr hmix) rfl
          (List.mem_cons_of_mem _ (List.mem_cons_self _ _))).1
    · have hseg2 : env.audioSegmentAvail = false := by
        cases h2 : env.audioSegmentAvail
        · rfl
        · exact absurd h2 hseg
      rw [generateBody_noseg env lang t hgtts hsave hseg2] at hgen
      refine ⟨t.next, ?_, ?_, ?_, ?_, ?_⟩
      · rw [hgen]
      · rw [hgen]
      · rw [hgen]
      · rw [hgen]; exact List.mem_cons_self _ _
      · rw [hgen]
        exact (play_ok env _ t.next hpg (Or.inr hmix) rfl (List.mem_cons_self _ _)).1

/-- Witness for `generate_fallback_mp3`: a run with pydub missing. -/
theorem generate_fallback_mp3_witness :
    (∃ mp3,
      (TTSPlayer.generate { envAll with audioSegmentAvail := false } "hi" sysStart).2 =
        Except.ok mp3 ∧
      (TTSPlayer.generate { envAll with audioSegmentAvail := false } "hi" sysStart).1.player.audio_file =
        some mp3 ∧
      (TTSPlayer.generate { envAll with audioSegmentAvail := false } "hi" sysStart).1.player.raw_mp3 =
        some mp3 ∧
      mp3 ∈ (TTSPlayer.generate { envAll with audioSegmentAvail := false } "hi" sysStart).1.fs ∧
      (TTSPlayer.play { envAll with audioSegmentAvail := false }
        (TTSPlayer.generate { envAll with audioSegmentAvail := false } "hi" sysStart).1).2 =
        Except.ok ()) :=
  generate_fallback_mp3 { envAll with audioSegmentAvail := false } "hi" sysStart
    rfl rfl (Or.inl rfl) rfl rfl

theorem stop_eval_inited (env : Env) (s : Sys) (hpg : env.pygameAvail = true)
    (hin : s.device.inited = true) :
    TTSPlayer.stop env s =
      { s with device := { s.device with busy := false },
               player := { s.player with is_playing := false, paused := false } } := by
  unfold TTSPlayer.stop ensurePygame
  simp [hpg, hin]

theorem stop_eval_reinit (env : Env) (s : Sys) (hpg : env.pygameAvail = true)
    (hin : s.device.inited = false) (hmx : env.mixerInitOk = true) :
    TTSPlayer.stop env s =
      { s with device := { s.device with inited := true, busy := false },
               player := { s.player with is_playing := false, paused := false } } := by
  unfold TTSPlayer.stop ensurePygame
  simp [hpg, hin, hmx]

theorem stop_eval_noop (env : Env) (s : Sys)
    (h : env.pygameAvail = false ∨ (s.device.inited = false ∧ env.mixerInitOk = false)) :
    TTSPlayer.stop env s = s := by
  unfold TTSPlayer.stop ensurePygame
  rcases h with h | ⟨h1, h2⟩
  · simp [h]
  · cases hpg : env.pygameAvail <;> simp [hpg, h1, h2]

/-- C6: `stop()` is idempotent and safe: calling it twice in a row
raises no error (the model of `stop` is a total function, every
exception being caught by its `try/except`), afterwards the controller
is Stopped (`is_playing = False`, `paused = False`), and when an
exception occurs inside `stop` (pygame missing or the mixer failing to
initialize) it is treated as a no-op. The flag hypothesis is the device
consistency of every reachable Playing/Paused state: those flags are
only ever set by a successful `play`/`replay`/`resume`, which requires
pygame present and the mixer initialized. -/
theorem stop_idempotent_stopped (env : Env) (s : Sys)
    (hflag : s.player.is_playing = true ∨ s.player.paused = true →
             env.pygameAvail = true ∧ s.device.inited = true) :
    TTSPlayer.stop env (TTSPlayer.stop env s) = TTSPlayer.stop env s ∧
    (TTSPlayer.stop env s).player.is_playing = false ∧
    (TTSPlayer.stop env s).player.paused = false := by
  by_cases hpg : env.pygameAvail = true
  · by_cases hin : s.device.inited = true
    · rw [stop_eval_inited env s hpg hin]
      refine ⟨?_, rfl, rfl⟩
      have hin3 : ({ s with
          device := { s.device with busy := false },
          player := { s.player with is_playing := false, paused := false } } :
            Sys).device.inited = true := hin
      rw [stop_eval_inited env _ hpg hin3]
    · have hin2 : s.device.inited = false := by
        cases h2 : s.device.inited
        · rfl
        · exact absurd h2 hin
      have hfl1 : s.player.is_playing = false := by
        cases h2 : s.player.is_playing
        · rfl
        · exact absurd (hflag (Or.inl h2)).2 hin
      have hfl2 : s.player.paused = false := by
        cases h2 : s.player.paused
        · rfl
        · exact absurd (hflag (Or.inr h2)).2 hin
      by_cases hmx : env.mixerInitOk = true
      · rw [stop_eval_reinit env s hpg hin2 hmx]
        refine ⟨?_, rfl, rfl⟩
        have hin3 : ({ s with
            device := { s.device with inited := true, busy := false },
            player := { s.player with is_playing := false, paused := false } } :
              Sys).device.inited = true := rfl
        rw [stop_eval_inited env _ hpg hin3]
      · have hmx2 : env.mixerInitOk = false := by
          cases h2 : env.mixerInitOk
          · rfl
          · exact absurd h2 hmx
        have hnoop := stop_eval_noop env s (Or.inr ⟨hin2, hmx2⟩)
        rw [hnoop]
        exact ⟨hnoop, hfl1, hfl2⟩
  · have hpg2 : env.pygameAvail = false := by
      cases h2 : env.pygameAvail
      · rfl
      · exact absurd h2 hpg
    have hfl1 : s.player.is_playing = false := by
      cases h2 : s.player.is_playing
      · rfl
      · exact absurd (hflag (Or.inl h2)).1 hpg
    have hfl2 : s.player.paused = false := by
      cases h2 : s.player.paused
      · rfl
      · exact absurd (hflag (Or.inr h2)).1 hpg
    have hnoop := stop_eval_noop env s (Or.inl hpg2)
    rw [hnoop]
    exact ⟨hnoop, hfl1, hfl2⟩

/-- Witness for `stop_idempotent_stopped`: stopping twice from the
Playing state. -/
theorem stop_idempotent_stopped_witness :
    (sysPrior.player.is_playing = true ∨ sysPrior.player.paused = true →
      envAll.pygameAvail = true ∧ sysPrior.device.inited = true) ∧
    (TTSPlayer.stop envAll (TTSPlayer.stop envAll sysPrior) = TTSPlayer.stop envAll sysPrior ∧
     (TTSPlayer.stop envAll sysPrior).player.is_playing = false ∧
     (TTSPlayer.stop envAll sysPrior).player.paused = false) :=
  ⟨fun _ => ⟨rfl, rfl⟩, stop_idempotent_stopped envAll sysPrior (fun _ => ⟨rfl, rfl⟩)⟩

theorem pause_keeps (env : Env) (s : Sys) :
    (TTSPlayer.pause env s).device.loaded = s.device.loaded ∧
    (TTSPlayer.pause env s).fs = s.fs ∧
    (TTSPlayer.pause env s).player.audio_file = s.player.audio_file := by
  unfold TTSPlayer.pause ensurePygame
  by_cases hpg : env.pygameAvail = true
  · by_cases hin : s.device.inited = true
    · by_cases hb : (s.device.busy && !s.player.paused) = true <;> simp [hpg, hin, hb]
    · by_cases hmx : env.mixerInitOk = true
      · by_cases hb : (s.device.busy && !s.player.paused) = true <;>
          simp [hpg, hin, hmx, hb]
      · simp [hpg, hin, hmx]
  · simp [hpg]

theorem resume_keeps (env : Env) (s : Sys) :
    (TTSPlayer.resume env s).device.loaded = s.device.loaded ∧
    (TTSPlayer.resume env s).fs = s.fs ∧
    (TTSPlayer.resume env s).player.audio_file = s.player.audio_file := by
  unfold TTSPlayer.resume ensurePygame
  by_cases hpg : env.pygameAvail = true
  · by_cases hin : s.device.inited = true
    · by_cases hp : s.player.paused = true <;> simp [hpg, hin, hp]
    · by_cases hmx : env.mixerInitOk = true
      · by_cases hp : s.player.paused = true <;> simp [hpg, hin, hmx, hp]
      · simp [hpg, hin, hmx]
  · simp [hpg]

theorem pause_player_cases (env : Env) (s : Sys) :
    (TTSPlayer.pause env s).player = s.player ∨
    ((TTSPlayer.pause env s).player =
       { s.player with paused := true, is_playing := false } ∧
     s.device.busy = true ∧ s.player.paused = false ∧
     env.pygameAvail = true ∧ (TTSPlayer.pause env s).device.inited = true) := by
  unfold TTSPlayer.pause ensurePygame
  by_cases hpg : env.pygameAvail = true
  · by_cases hin : s.device.inited = true
    · by_cases hb : (s.device.busy && !s.player.paused) = true
      · right
        have hb2 := hb
        rw [Bool.and_eq_true] at hb2
        refine ⟨by simp [hpg, hin, hb], hb2.1, by simpa using hb2.2, hpg, ?_⟩
        simp [hpg, hin, hb]
      · left; simp [hpg, hin, hb]
    · by_cases hmx : env.mixerInitOk = true
      · by_cases hb : (s.device.busy && !s.player.paused) = true
        · right
          have hb2 := hb
          rw [Bool.and_eq_true] at hb2
          refine ⟨by simp [hpg, hin, hmx, hb], hb2.1, by simpa using hb2.2, hpg, ?_⟩
          simp [hpg, hin, hmx, hb]
        · left; simp [hpg, hin, hmx, hb]
      · left; simp [hpg, hin, hmx]
  · left; simp [hpg]

theorem resume_player_cases (env : Env) (s : Sys) :
    (TTSPlayer.resume env s).player = s.player ∨
    ((TTSPlayer.resume env s).player =
       { s.player with paused := false, is_playing := true } ∧
     s.player.paused = true) := by
  unfold TTSPlayer.resume ensurePygame
  by_cases hpg : env.pygameAvail = true
  · by_cases hin : s.device.inited = true
    · by_cases hp : s.player.paused = true
      · right; exact ⟨by simp [hpg, hin, hp], hp⟩
      · left; simp [hpg, hin, hp]
    · by_cases hmx : env.mixerInitOk = true
      · by_cases hp : s.player.paused = true
        · right; exact ⟨by simp [hpg, hin, hmx, hp], hp⟩
        · left; simp [hpg, hin, hmx, hp]
      · left; simp [hpg, hin, hmx]
  · left; simp [hpg]

theorem resume_eval_paused (env : Env) (s : Sys) (hpg : env.pygameAvail = true)
    (hin : s.device.inited = true) (hp : s.player.paused = true) :
    TTSPlayer.resume env s =
      { s with device := { s.device with busy := s.device.loaded.isSome },
               player := { s.player with paused := false, is_playing := true } } := by
  unfold TTSPlayer.resume ensurePygame
  simp [hpg, hin, hp]

/-- C7: from the Playing state, `pause()` then `resume()` returns the
controller to Playing without touching storage or the file loaded in
the mixer (no re-load); `pause()` leaves the controller state unchanged
unless Playing, and `resume()` leaves it unchanged unless Paused. The
hypothesis is the device consistency of reachable states: the mixer is
only busy while the controller is Playing. -/
theorem pause_resume_round_trip (env : Env) (s : Sys)
    (hbusy : s.device.busy = true → s.player.is_playing = true) :
    (s.player.is_playing = true → s.player.paused = false →
      ((TTSPlayer.resume env (TTSPlayer.pause env s)).player.is_playing = true ∧
       (TTSPlayer.resume env (TTSPlayer.pause env s)).player.paused = false ∧
       (TTSPlayer.resume env (TTSPlayer.pause env s)).device.loaded = s.device.loaded ∧
       (TTSPlayer.resume env (TTSPlayer.pause env s)).fs = s.fs)) ∧
    (s.player.is_playing = false ∨ s.player.paused = true →
      (TTSPlayer.pause env s).player = s.player) ∧
    (s.player.paused = false → (TTSPlayer.resume env s).player = s.player) := by
  obtain ⟨hkl, hkf, hka⟩ := pause_keeps env s
  refine ⟨?_, ?_, ?_⟩
  · intro hplay hpau
    rcases pause_player_cases env s with hnoop | ⟨hpl, hb, hp0, hpg, hin⟩
    · rcases resume_player_cases env (TTSPlayer.pause env s) with hr | ⟨hrl, hrp⟩
      · obtain ⟨rkl, rkf, _⟩ := resume_keeps env (TTSPlayer.pause env s)
        refine ⟨?_, ?_, ?_, ?_⟩
        · rw [hr, hnoop]; exact hplay
        · rw [hr, hnoop]; exact hpau
        · rw [rkl]; exact hkl
        · rw [rkf]; exact hkf
      · simp [hnoop, hpau] at hrp
    · have hp2 : (TTSPlayer.pause env s).player.paused = true := by rw [hpl]
      have hres := resume_eval_paused env (TTSPlayer.pause env s) hpg hin hp2
      rw [hres]
      exact ⟨rfl, rfl, hkl, hkf⟩
  · intro h
    rcases pause_player_cases env s with hnoop | ⟨_, hb, hp0, _, _⟩
    · exact hnoop
    · rcases h with h1 | h2
      · exact absurd (hbusy hb) (by rw [h1]; simp)
      · exact absurd h2 (by rw [hp0]; simp)
  · intro h
    rcases resume_player_cases env s with hnoop | ⟨_, hp⟩
    · exact hnoop
    · exact absurd hp (by rw [h]; simp)

/-- Witness for `pause_resume_round_trip`: pausing and resuming from
the Playing state of `sysPrior`. -/
theorem pause_resume_round_trip_witness :
    (sysPrior.device.busy = true → sysPrior.player.is_playing = true) ∧
    ((sysPrior.player.is_playing = true → sysPrior.player.paused = false →
      ((TTSPlayer.resume envAll (TTSPlayer.pause envAll sysPrior)).player.is_playing = true ∧
       (TTSPlayer.resume envAll (TTSPlayer.pause envAll sysPrior)).player.paused = false ∧
       (TTSPlayer.resume envAll (TTSPlayer.pause envAll sysPrior)).device.loaded =
         sysPrior.device.loaded ∧
       (TTSPlayer.resume envAll (TTSPlayer.pause envAll sysPrior)).fs = sysPrior.fs)) ∧
     (sysPrior.player.is_playing = false ∨ sysPrior.player.paused = true →
       (TTSPlayer.pause envAll sysPrior).player = sysPrior.player) ∧
     (sysPrior.player.paused = false →
       (TTSPlayer.resume envAll sysPrior).player = sysPrior.player)) :=
  ⟨fun _ => rfl, pause_resume_round_trip envAll sysPrior (fun _ => rfl)⟩

/-- C8: for every dictionary lookup, a non-success HTTP status from the
definitions endpoint results in the no-definition message being shown
after the searching banner, and the lookup returns normally (the model
is a total function into the displayed texts: nothing is raised on this
branch, and the surrounding `try/except` renders any exception as text
rather than propagating it). -/
theorem lookup_non_success_status (word : String) (resp : DictResp)
    (targetCode : String) (tr : String → Option String)
    (h : resp.status_code ≠ 200) :
    fetchMeaningThread word resp targetCode tr = [searchingMsg word, noDefMsg word] := by
  unfold fetchMeaningThread
  simp [h]

/-- Witness for `lookup_non_success_status`: a 404 response. -/
theorem lookup_non_success_status_witness :
    (404 : Nat) ≠ 200 ∧
    fetchMeaningThread "serendipity" { status_code := 404, data := [] } "hi"
        (fun t => some t) =
      [searchingMsg "serendipity", noDefMsg "serendipity"] :=
  ⟨by decide,
   lookup_non_success_status "serendipity" { status_code := 404, data := [] } "hi"
     (fun t => some t) (by decide)⟩

theorem play_player_cases (env : Env) (s : Sys) :
    (TTSPlayer.play env s).1.player = s.player ∨
    (TTSPlayer.play env s).1.player =
      { s.player with is_playing := true, paused := false } := by
  unfold TTSPlayer.play ensurePygame
  by_cases hpg : env.pygameAvail = true
  · by_cases hin : s.device.inited = true
    · cases hf : s.player.audio_file with
      | none => left; simp [hpg, hin, hf]
      | some p =>
        by_cases hm : p ∈ s.fs
        · right; simp [hpg, hin, hf, hm]
        · left; simp [hpg, hin, hf, hm]
    · by_cases hmx : env.mixerInitOk = true
      · cases hf : s.player.audio_file with
        | none => left; simp [hpg, hin, hmx, hf]
        | some p =>
          by_cases hm : p ∈ s.fs
          · right; simp [hpg, hin, hmx, hf, hm]
          · left; simp [hpg, hin, hmx, hf, hm]
      · left; simp [hpg, hin, hmx]
  · left; simp [hpg]

theorem replay_player_cases (env : Env) (s : Sys) :
    (TTSPlayer.replay env s).1.player = s.player ∨
    (TTSPlayer.replay env s).1.player =
      { s.player with is_playing := true, paused := false } := by
  unfold TTSPlayer.replay ensurePygame
  by_cases hpg : env.pygameAvail = true
  · by_cases hin : s.device.inited = true
    · cases hf : s.player.audio_file with
      | none => left; simp [hpg, hin, hf]
      | some p =>
        by_cases hm : p ∈ s.fs
        · right; simp [hpg, hin, hf, hm]
        · left; simp [hpg, hin, hf, hm]
    · by_cases hmx : env.mixerInitOk = true
      · cases hf : s.player.audio_file with
        | none => left; simp [hpg, hin, hmx, hf]
        | some p =>
          by_cases hm : p ∈ s.fs
          · right; simp [hpg, hin, hmx, hf, hm]
          · left; simp [hpg, hin, hmx, hf, hm]
      · left; simp [hpg, hin, hmx]
  · left; simp [hpg]

theorem stop_player_cases (env : Env) (s : Sys) :
    (TTSPlayer.stop env s).player = s.player ∨
    (TTSPlayer.stop env s).player =
      { s.player with is_playing := false, paused := false } := by
  by_cases hpg : env.pygameAvail = true
  · by_cases hin : s.device.inited = true
    · right; rw [stop_eval_inited env s hpg hin]
    · have hin2 : s.device.inited = false := by
        cases h2 : s.device.inited
        · rfl
        · exact absurd h2 hin
      by_cases hmx : env.mixerInitOk = true
      · right; rw [stop_eval_reinit env s hpg hin2 hmx]
      · have hmx2 : env.mixerInitOk = false := by
          cases h2 : env.mixerInitOk
          · rfl
          · exact absurd h2 hmx
        left; rw [stop_eval_noop env s (Or.inr ⟨hin2, hmx2⟩)]
  · have hpg2 : env.pygameAvail = false := by
      cases h2 : env.pygameAvail
      · rfl
      · exact absurd h2 hpg
    left; rw [stop_eval_noop env s (Or.inl hpg2)]

theorem generate_flags (env : Env) (lang : String) (s : Sys) :
    (TTSPlayer.generate env lang s).1.player.is_playing = false ∧
    (TTSPlayer.generate env lang s).1.player.paused = false := by
  have h := generateBody_flags env lang (TTSPlayer.cleanup (stopAndCleanupPlayback env s))
  have hgen : TTSPlayer.generate env lang s =
      generateBody env lang (TTSPlayer.cleanup (stopAndCleanupPlayback env s)) := rfl
  rw [hgen, h.1, h.2, cleanup_player]
  exact ⟨rfl, rfl⟩

/-- C9: the invariant "never simultaneously Playing and Paused" holds of
the freshly constructed player and is preserved by every operation of
`TTSPlayer` — `generate`, `play`, `pause`, `resume`, `stop`, `replay`
and `cleanup` — on their success and failure paths alike. -/
theorem flag_invariant_preserved (env : Env) (lang : String) (s : Sys)
    (h : flagInv s.player) :
    flagInv TTSPlayer.initState ∧
    flagInv (TTSPlayer.generate env lang s).1.player ∧
    flagInv (TTSPlayer.play env s).1.player ∧
    flagInv (TTSPlayer.pause env s).player ∧
    flagInv (TTSPlayer.resume env s).player ∧
    flagInv (TTSPlayer.stop env s).player ∧
    flagInv (TTSPlayer.replay env s).1.player ∧
    flagInv (TTSPlayer.cleanup s).player := by
  refine ⟨by decide, ?_, ?_, ?_, ?_, ?_, ?_, ?_⟩
  · obtain ⟨h1, h2⟩ := generate_flags env lang s
    unfold flagInv
    rw [h1]
    simp
  · rcases play_player_cases env s with hc | hc <;> rw [flagInv, hc]
    · exact h
    · simp
  · rcases pause_player_cases env s with hc | ⟨hc, _, _, _, _⟩ <;> rw [flagInv, hc]
    · exact h
    · simp
  · rcases resume_player_cases env s with hc | ⟨hc, _⟩ <;> rw [flagInv, hc]
    · exact h
    · simp
  · rcases stop_player_cases env s with hc | hc <;> rw [flagInv, hc]
    · exact h
    · simp
  · rcases replay_player_cases env s with hc | hc <;> rw [flagInv, hc]
    · exact h
    · simp
  · rw [flagInv, cleanup_player]
    simp

/-- Witness for `flag_invariant_preserved` at the initial state. -/
theorem flag_invariant_preserved_witness :
    flagInv sysStart.player ∧
    (flagInv TTSPlayer.initState ∧
     flagInv (TTSPlayer.generate envAll "en" sysStart).1.player ∧
     flagInv (TTSPlayer.play envAll sysStart).1.player ∧
     flagInv (TTSPlayer.pause envAll sysStart).player ∧
     flagInv (TTSPlayer.resume envAll sysStart).player ∧
     flagInv (TTSPlayer.stop envAll sysStart).player ∧
     flagInv (TTSPlayer.replay envAll sysStart).1.player ∧
     flagInv (TTSPlayer.cleanup sysStart).player) :=
  ⟨by decide, flag_invariant_preserved envAll "en" sysStart (by decide)⟩

/-- Evaluation of the post-prologue body when `tts.save` fails: the
freshly created mp3 is removed again before the error is raised. -/
theorem generateBody_savefail (env : Env) (lang : String) (t : Sys)
    (hgtts : env.gttsAvail = true) (hsave : env.gttsSaveOk = false) :
    generateBody env lang t =
      ({ t with fs := removeIfExists t.device t.next (t.next :: t.fs),
                next := t.next + 1 },
       Except.error msgGttsFail) := by
  unfold generateBody
  simp [hgtts, hsave]

/-- C10: `generate` is not atomic on failure — when the network
synthesis step (`tts.save`) fails, the previously generated asset has
already been deleted and `audio_file` is `None` when the error
propagates, so a subsequent `play()` fails with the no-audio error: a
failed regeneration never leaves the old asset playable. -/
theorem generate_failure_clears_previous (env : Env) (lang : String) (s : Sys) (p : Nat)
    (hfresh : s.fresh) (hdev : s.devOK env)
    (hgtts : env.gttsAvail = true) (hsave : env.gttsSaveOk = false)
    (hprev : s.player.audio_file = some p)
    (hpg : env.pygameAvail = true) (hmix : env.mixerInitOk = true) :
    (TTSPlayer.generate env lang s).2 = Except.error msgGttsFail ∧
    (TTSPlayer.generate env lang s).1.player.audio_file = none ∧
    p ∉ (TTSPlayer.generate env lang s).1.fs ∧
    (TTSPlayer.play env (TTSPlayer.generate env lang s).1).2 = Except.error msgNoAudio := by
  obtain ⟨hpl, hnx, hld, hsub, hrem⟩ := prologue_spec env s hdev
  have hgen : TTSPlayer.generate env lang s =
      generateBody env lang (TTSPlayer.cleanup (stopAndCleanupPlayback env s)) := rfl
  set t := TTSPlayer.cleanup (stopAndCleanupPlayback env s) with ht
  rw [generateBody_savefail env lang t hgtts hsave] at hgen
  have hptr : p ∈ tracked s.player := by simp [tracked, hprev]
  have hplt : p < s.next := hfresh.2 p hptr
  have hpt : p ∉ t.fs := hrem p hptr
  have hfile : (TTSPlayer.generate env lang s).1.player.audio_file = none := by
    rw [hgen]
    show t.player.audio_file = none
    rw [hpl]
    rfl
  refine ⟨by rw [hgen], hfile, ?_, ?_⟩
  · rw [hgen]
    intro hmem
    have hq2 := mem_of_mem_removeIfExists hmem
    rcases List.mem_cons.mp hq2 with h1 | h1
    · omega
    · exact hpt h1
  · exact (play_without_file_eval env (TTSPlayer.generate env lang s).1 hpg
      (Or.inr hmix) (Or.inl hfile)).1

/-- Witness for `generate_failure_clears_previous`: the synthesis call
fails while a first asset is loaded and playing. -/
theorem generate_failure_clears_previous_witness :
    sysPrior.fresh ∧ sysPrior.devOK { envAll with gttsSaveOk := false } ∧
    ((TTSPlayer.generate { envAll with gttsSaveOk := false } "fr" sysPrior).2 =
       Except.error msgGttsFail ∧
     (TTSPlayer.generate { envAll with gttsSaveOk := false } "fr" sysPrior).1.player.audio_file =
       none ∧
     0 ∉ (TTSPlayer.generate { envAll with gttsSaveOk := false } "fr" sysPrior).1.fs ∧
     (TTSPlayer.play { envAll with gttsSaveOk := false }
       (TTSPlayer.generate { envAll with gttsSaveOk := false } "fr" sysPrior).1).2 =
       Except.error msgNoAudio) :=
  ⟨by decide, by decide,
   generate_failure_clears_previous { envAll with gttsSaveOk := false } "fr" sysPrior 0
     (by decide) (by decide) rfl rfl rfl rfl rfl⟩

/-- C4 counterexample: with pyttsx3 importable, gTTS not importable and
the offline engine failing after its `mkstemp`, `generate` raises the
gTTS-unavailable error while the temporary WAV file (path 0) created
during the failed attempt is still on storage and untracked — an
orphaned temp file on a failure path. -/
theorem generate_orphan_counterexample :
    (TTSPlayer.generate
        { pygameAvail := false, pyttsx3Avail := true, gttsAvail := false,
          audioSegmentAvail := false, mixerInitOk := false, pyttsx3Ok := false,
          gttsSaveOk := false, convertOk := false } "en" sysStart).2 =
      Except.error msgNoGtts ∧
    0 ∈ (TTSPlayer.generate
        { pygameAvail := false, pyttsx3Avail := true, gttsAvail := false,
          audioSegmentAvail := false, mixerInitOk := false, pyttsx3Ok := false,
          gttsSaveOk := false, convertOk := false } "en" sysStart).1.fs ∧
    tracked (TTSPlayer.generate
        { pygameAvail := false, pyttsx3Avail := true, gttsAvail := false,
          audioSegmentAvail := false, mixerInitOk := false, pyttsx3Ok := false,
          gttsSaveOk := false, convertOk := false } "en" sysStart).1.player = [] := by
  decide

/-- C4 (amended): whenever `generate` raises an error on the network
synthesis (gTTS) path — the only failure path once gTTS is importable —
every temporary file created during the failed attempt has been removed
before the error reaches the caller: the post-state storage is included
in the pre-state storage. (On the offline pyttsx3 fallback path the WAV
temp file of the failed offline attempt can survive, see
`generate_orphan_counterexample`.) -/
theorem generate_failure_no_orphan_gtts (env : Env) (lang : String) (s : Sys)
    (hdev : s.devOK env) (hgtts : env.gttsAvail = true) :
    ∀ e, (TTSPlayer.generate env lang s).2 = Except.error e →
      ∀ q ∈ (TTSPlayer.generate env lang s).1.fs, q ∈ s.fs := by
  intro e he q hq
  obtain ⟨hpl, hnx, hld, hsub, hrem⟩ := prologue_spec env s hdev
  have hgen : TTSPlayer.generate env lang s =
      generateBody env lang (TTSPlayer.cleanup (stopAndCleanupPlayback env s)) := rfl
  set t := TTSPlayer.cleanup (stopAndCleanupPlayback env s) with ht
  by_cases hsave : env.gttsSaveOk = true
  · exfalso
    by_cases hseg : env.audioSegmentAvail = true
    · by_cases hconv : env.convertOk = true
      · rw [hgen, generateBody_conv env lang t hgtts hsave hseg hconv] at he
        simp at he
      · have hconv2 : env.convertOk = false := by
          cases h2 : env.convertOk
          · rfl
          · exact absurd h2 hconv
        rw [hgen, generateBody_noconv env lang t hgtts hsave hseg hconv2] at he
        simp at he
    · have hseg2 : env.audioSegmentAvail = false := by
        cases h2 : env.audioSegmentAvail
        · rfl
        · exact absurd h2 hseg
      rw [hgen, generateBody_noseg env lang t hgtts hsave hseg2] at he
      simp at he
  · have hsave2 : env.gttsSaveOk = false := by
      cases h2 : env.gttsSaveOk
      · rfl
      · exact absurd h2 hsave
    rw [hgen, generateBody_savefail env lang t hgtts hsave2] at hq
    have hq2 := mem_of_mem_removeIfExists hq
    rcases List.mem_cons.mp hq2 with h1 | h1
    · exfalso
      subst h1
      exact not_mem_removeIfExists_self hld hq
    · exact hsub q h1

/-- Witness for `generate_failure_no_orphan_gtts`: a failing `tts.save`
leaves storage exactly as it was. -/
theorem generate_failure_no_orphan_gtts_witness :
    (TTSPlayer.generate { envAll with gttsSaveOk := false } "en" sysStart).2 =
      Except.error msgGttsFail ∧
    (∀ q ∈ (TTSPlayer.generate { envAll with gttsSaveOk := false } "en" sysStart).1.fs,
      q ∈ sysStart.fs) :=
  ⟨by decide,
   generate_failure_no_orphan_gtts { envAll with gttsSaveOk := false } "en" sysStart
     (by decide) rfl msgGttsFail (by decide)⟩
